import Mathlib

/-
Verification development for the PC-builder expert assistant (app.py).

The Python source is shallowly embedded below.  Python strings become
Lean String values, Python ints become Int, dicts with a fixed shape
become structures, and the insertion-ordered parts dict of each build
becomes an ordered association list.  The two external collaborators
(the LLM extraction chain and the marketplace search) are passed in as
oracle parameters; the calls the orchestrator makes to them are recorded
in an explicit trace so call-count claims can be stated.  Python float()
on a digits-and-dots string is modelled over the rationals: it succeeds
exactly when the string has at least one digit and at most one dot, and
raising ValueError is modelled as Except.error.  The regex d-class is
modelled as the ASCII digits, which agrees with it on every string the
claims mention.
-/

/-- Structured output of intent extraction: the NeedsAnalysis record of
app.py with fields budget, use_case and has_confirmed. -/
structure NeedsRecord where
  budget : Int
  use_case : String
  has_confirmed : Bool
deriving DecidableEq, Repr

/-- One build tier of the catalog: display name plus the insertion-ordered
mapping from component category to part name. -/
structure Build where
  name : String
  parts : List (String × String)
deriving DecidableEq, Repr

/-- Result of one marketplace lookup, as returned by
search_amazon_for_component. -/
structure PartListing where
  name : String
  price : String
  link : String
  image : String
deriving DecidableEq, Repr

/-- A PartListing after the orchestrator has attached the component
category under the key type. -/
structure TypedListing where
  type : String
  name : String
  price : String
  link : String
  image : String
deriving DecidableEq, Repr

/-- One call to an external collaborator, recorded in the trace of a
turn: either the single extraction-chain invocation on the transcript or
one price lookup for a part name. -/
inductive CollabCall where
  | extract (transcript : String)
  | lookup (partName : String)
deriving DecidableEq, Repr

/-- Outcome of one orchestrator turn: the collaborator calls made, in
order, and the response, with Except.error standing for an uncaught
Python exception escaping get_assistant_response. -/
structure TurnResult where
  calls : List CollabCall
  response : Except Unit String
deriving Repr

/-- The budget_office entry of PC_BUILDS. -/
def budget_office : Build :=
  ⟨"Budget Office/Web Browse Build",
   [("CPU", "AMD Ryzen 5 5600G"),
    ("Motherboard", "ASRock B450M PRO4"),
    ("RAM", "Corsair Vengeance LPX 16GB DDR4 3200MHz"),
    ("Storage", "Crucial P3 1TB NVMe SSD"),
    ("PSU", "Thermaltake Smart 500W 80+ White"),
    ("Case", "Cooler Master MasterBox Q300L")]⟩

/-- The mid_range_gaming entry of PC_BUILDS. -/
def mid_range_gaming : Build :=
  ⟨"Mid-Range Gaming Build",
   [("CPU", "AMD Ryzen 5 7600X"),
    ("GPU", "NVIDIA GeForce RTX 4060"),
    ("Motherboard", "Gigabyte B650 Gaming X AX"),
    ("RAM", "G.Skill Flare X5 32GB DDR5 6000MHz"),
    ("Storage", "Samsung 980 Pro 1TB NVMe SSD"),
    ("CPU Cooler", "Thermalright Phantom Spirit 120 SE"),
    ("PSU", "Corsair RM750e 750W 80+ Gold"),
    ("Case", "Lian Li Lancool 216")]⟩

/-- The high_end_gaming entry of PC_BUILDS. -/
def high_end_gaming : Build :=
  ⟨"High-End Gaming/Streaming Build",
   [("CPU", "AMD Ryzen 7 7800X3D"),
    ("GPU", "NVIDIA GeForce RTX 4070 Super"),
    ("Motherboard", "MSI MAG B650 Tomahawk WiFi"),
    ("RAM", "G.Skill Trident Z5 Neo 32GB DDR5 6000MHz CL30"),
    ("Storage", "Western Digital Black SN850X 2TB NVMe SSD"),
    ("CPU Cooler", "Thermalright Phantom Spirit 120 SE"),
    ("PSU", "SeaSonic FOCUS Plus Gold 850W"),
    ("Case", "Fractal Design Pop Air")]⟩

/-- The professional_workstation entry of PC_BUILDS. -/
def professional_workstation : Build :=
  ⟨"Professional Video Editing Workstation",
   [("CPU", "Intel Core i7-14700K"),
    ("GPU", "NVIDIA GeForce RTX 4080 Super"),
    ("Motherboard", "MSI PRO Z790-A WIFI"),
    ("RAM", "Corsair Vengeance 64GB DDR5 5600MHz"),
    ("Storage", "Samsung 990 Pro 2TB NVMe SSD"),
    ("CPU Cooler", "ARCTIC Liquid Freezer II 360"),
    ("PSU", "Corsair RM1000e 1000W 80+ Gold"),
    ("Case", "be quiet! Pure Base 500DX")]⟩

/-- The PC_BUILDS dictionary of app.py, in insertion order. -/
def PC_BUILDS : List (String × Build) :=
  [("budget_office", budget_office),
   ("mid_range_gaming", mid_range_gaming),
   ("high_end_gaming", high_end_gaming),
   ("professional_workstation", professional_workstation)]

/-- Character-list version of string startsWith, used to model the Python
substring operator. -/
def leadsWith : List Char → List Char → Bool
  | [], _ => true
  | _ :: _, [] => false
  | c :: cs, d :: ds => (c == d) && leadsWith cs ds

/-- Substring test on character lists: true when the needle occurs as a
contiguous run of the haystack. -/
def hasSub (needle : List Char) : List Char → Bool
  | [] => needle.isEmpty
  | d :: ds => leadsWith needle (d :: ds) || hasSub needle ds

/-- The Python expression needle in haystack on strings. -/
def pyIn (needle haystack : String) : Bool :=
  hasSub needle.data haystack.data

/-- select_build_tier of app.py: use-case keyword first, budget
fallback. -/
def select_build_tier (budget : Int) (use_case : String) : Build :=
  if pyIn "gaming" use_case then
    if budget < 1600 then mid_range_gaming else high_end_gaming
  else if pyIn "editing" use_case then
    professional_workstation
  else if pyIn "office" use_case then
    budget_office
  else if budget ≤ 700 then
    budget_office
  else if budget ≤ 1600 then
    mid_range_gaming
  else
    high_end_gaming

/-- Model of re.sub removing every character that is not a digit or a
dot from the price string (the regex d-class taken as ASCII digits). -/
def stripNonNumeric (s : String) : List Char :=
  s.data.filter (fun c => c.isDigit || c == '.')

/-- Whether Python float() accepts a nonempty string made only of digits
and dots: at most one dot and at least one digit. -/
def pyFloatOk (s : List Char) : Bool :=
  decide (List.count '.' s ≤ 1) && s.any (fun c => c.isDigit)

/-- Numeric value of a run of ASCII digits. -/
def digitsVal (s : List Char) : Nat :=
  s.foldl (fun a c => 10 * a + (c.toNat - 48)) 0

/-- An exact decimal number, mantissa over a power of ten.  The Python
code sums parsed prices in a float; the claims treat that arithmetic as
exact decimal arithmetic, which this representation captures while
staying kernel-computable. -/
structure Dec where
  man : Int
  exp : Nat
deriving DecidableEq, Repr

/-- Rational value of an exact decimal. -/
def Dec.val (d : Dec) : ℚ :=
  (d.man : ℚ) / (10 : ℚ) ^ d.exp

/-- Zero as an exact decimal. -/
def decZero : Dec :=
  ⟨0, 0⟩

/-- Exact addition of decimals by putting both on a common power of
ten. -/
def decAdd (a b : Dec) : Dec :=
  ⟨a.man * (10 : Int) ^ b.exp + b.man * (10 : Int) ^ a.exp, a.exp + b.exp⟩

/-- Exact decimal value float() yields on an accepted digits-and-dots
string. -/
def parseLenient (s : List Char) : Dec :=
  let intPart := s.takeWhile (fun c => c ≠ '.')
  let fracPart := (s.dropWhile (fun c => c ≠ '.')).drop 1
  ⟨(digitsVal intPart : Int) * (10 : Int) ^ fracPart.length + (digitsVal fracPart : Int),
   fracPart.length⟩

/-- A price string on which float() cannot raise: its stripped form is
empty or an accepted numeral. -/
def priceOkB (price : String) : Bool :=
  (stripNonNumeric price).isEmpty || pyFloatOk (stripNonNumeric price)

/-- Contribution of one price to the estimated total, in the words of the
spec: strip, contribute zero when empty, otherwise the parsed value. -/
def lenientValue (price : String) : Dec :=
  if (stripNonNumeric price).isEmpty then decZero
  else parseLenient (stripNonNumeric price)

/-- Estimated total in the words of the spec: the sum of the lenient
contributions of the listed prices. -/
def lenientTotal : List TypedListing → Dec
  | [] => decZero
  | p :: rest => decAdd (lenientValue p.price) (lenientTotal rest)

/-- Rendering of the total with exactly two decimal places, the Python
format .2f, on the exact-decimal model of the total: scale to cents,
rounding halves up (the claims never hit a half-cent tie, where the
binary float formatting of the source has its own behaviour). -/
def render2dp (d : Dec) : String :=
  let e : Int := (10 : Int) ^ d.exp
  let cents : Int := (d.man * 200 + e) / (2 * e)
  let n : Nat := cents.natAbs
  (if cents < 0 then "-" else "")
    ++ toString (n / 100) ++ "."
    ++ (if n % 100 < 10 then "0" else "") ++ toString (n % 100)

/-- Title and column-header lines that format_results_as_markdown puts
before the rows. -/
def tableHeader (build : Build) : String :=
  "### Your Recommended " ++ build.name ++ "\n\n"
    ++ "| Component | Part | Price | Image |\n"
    ++ "|---|---|---|---|\n"

/-- One table row of format_results_as_markdown. -/
def partRow (p : TypedListing) : String :=
  "| **" ++ p.type ++ "** | [" ++ p.name ++ "](" ++ p.link ++ ") | "
    ++ p.price ++ " | ![" ++ p.name ++ "](" ++ p.image ++ ") |\n"

/-- Trailing total line and disclaimer appended after the rows. -/
def totalFooter (total : Dec) : String :=
  "\n**Estimated Total: $" ++ render2dp total ++ "**"
    ++ "\n\n*Prices are estimates from live search results and may vary. Links will open in a new tab.*"

/-- Concatenation of rendered rows. -/
def concatRows : List String → String
  | [] => ""
  | r :: rest => r ++ concatRows rest

/-- The for-loop of format_results_as_markdown: strip the price, add it
to the running total when the stripped string is nonempty (float()
raising on a rejected numeral, modelled as Except.error), then append
the row. -/
def formatLoop : List TypedListing → Dec → String → Except Unit (Dec × String)
  | [], total, table => Except.ok (total, table)
  | p :: rest, total, table =>
    let stripped := stripNonNumeric p.price
    if stripped.isEmpty then
      formatLoop rest total (table ++ partRow p)
    else if pyFloatOk stripped then
      formatLoop rest (decAdd total (parseLenient stripped)) (table ++ partRow p)
    else
      Except.error ()

/-- format_results_as_markdown of app.py: header, one row per listing
with the price folded into the total, then the total line and the
disclaimer. -/
def format_results_as_markdown (build : Build) (part_details : List TypedListing) :
    Except Unit String :=
  match formatLoop part_details decZero (tableHeader build) with
  | Except.error e => Except.error e
  | Except.ok (total, table) => Except.ok (table ++ totalFooter total)

/-- Input variables declared by llama_template in app.py. -/
def templateVars : List String :=
  ["system_prompt", "format_prompt", "chat_history"]

/-- Keys that analyze_user_needs actually passes to chain.invoke in
app.py. -/
def providedKeys : List String :=
  ["system_prompt", "format_prompt", "user_prompt"]

/-- Model of chain.invoke for the template-llm-parser chain: the prompt
template raises when a declared input variable is missing from the
provided keys; otherwise the downstream llm-and-parser stage (an oracle
here) decides the outcome. -/
def chain_invoke (downstream : Except Unit NeedsRecord) : Except Unit NeedsRecord :=
  if templateVars.all (fun v => providedKeys.contains v) then downstream
  else Except.error ()

/-- The all-sentinel Needs Record returned by the exception handler of
analyze_user_needs. -/
def sentinelNeeds : NeedsRecord :=
  ⟨0, "unknown", false⟩

/-- analyze_user_needs of app.py: invoke the chain and fall back to the
all-sentinel record on any exception. -/
def analyze_user_needs (downstream : Except Unit NeedsRecord) : NeedsRecord :=
  match chain_invoke downstream with
  | Except.ok r => r
  | Except.error _ => sentinelNeeds

/-- The listing search_amazon_for_component returns when the shopping
results are empty. -/
def notFoundListing (part_name : String) : PartListing :=
  ⟨part_name, "Not Found", "#", ""⟩

/-- Attaching the component category to a search result, as the
orchestrator loop does before collecting it. -/
def withType (t : String) (p : PartListing) : TypedListing :=
  ⟨t, p.name, p.price, p.link, p.image⟩

/-- Fixed greeting returned on an empty history. -/
def onboarding_prompt : String :=
  "Hello! I\x27m your PC building expert assistant. To get started, what do you plan to use this PC for and what is your approximate budget?"

/-- Prompt returned when the extracted budget is zero. -/
def ask_budget_prompt : String :=
  "I see. And what is your approximate budget for the new PC?"

/-- Prompt returned when the use case is unknown; it echoes the known
budget. -/
def ask_use_case_prompt (budget : Int) : String :=
  "Got it, a budget of around $" ++ toString budget
    ++ ". What is the primary use for this PC? For example: high-end gaming, video editing, or just office work and web Browse?"

/-- Confirmation prompt restating both the use case and the budget. -/
def ask_confirm_prompt (budget : Int) (use_case : String) : String :=
  "Okay, just to confirm: you\x27re looking for a PC for **" ++ use_case
    ++ "** with a budget around **$" ++ toString budget ++ "**. Is that correct?"

/-- Generic failure message of the empty-parts branch. -/
def parts_error_prompt : String :=
  "I\x27m sorry, I encountered an error while searching for parts. Please try again."

/-- Transcript string built from the history and the latest message. -/
def transcript (user_message : String) (chat_history : List (String × String)) : String :=
  String.intercalate "\n"
      (chat_history.map (fun turn => "User: " ++ turn.1 ++ "\nAssistant: " ++ turn.2))
    ++ "\nUser: " ++ user_message

/-- The proceed-to-build tail of get_assistant_response: select the
tier, look up every part in order, and format, with the lookup calls
recorded. -/
def respond_build (lookup : String → PartListing) (needs : NeedsRecord) : TurnResult :=
  let selected := select_build_tier needs.budget needs.use_case
  let final_parts := selected.parts.map (fun pt => withType pt.1 (lookup pt.2))
  let calls := selected.parts.map (fun pt => CollabCall.lookup pt.2)
  if final_parts.isEmpty then ⟨calls, Except.ok parts_error_prompt⟩
  else ⟨calls, format_results_as_markdown selected final_parts⟩

/-- Lines 200 to 223 of app.py: the dialogue-state dispatch on an
extracted Needs Record, with the proceed branch delegated to
respond_build. -/
def respond_to_needs (lookup : String → PartListing) (needs : NeedsRecord) : TurnResult :=
  if needs.budget = 0 then
    ⟨[], Except.ok ask_budget_prompt⟩
  else if needs.use_case = "unknown" then
    ⟨[], Except.ok (ask_use_case_prompt needs.budget)⟩
  else if needs.has_confirmed = false then
    ⟨[], Except.ok (ask_confirm_prompt needs.budget needs.use_case)⟩
  else
    respond_build lookup needs

/-- get_assistant_response of app.py: empty history short-circuits to
the greeting; otherwise one extraction call on the transcript followed
by the dialogue-state dispatch. -/
def get_assistant_response (downstream : Except Unit NeedsRecord)
    (lookup : String → PartListing) (user_message : String)
    (chat_history : List (String × String)) : TurnResult :=
  if chat_history.isEmpty then ⟨[], Except.ok onboarding_prompt⟩
  else
    let inner := respond_to_needs lookup (analyze_user_needs downstream)
    ⟨CollabCall.extract (transcript user_message chat_history) :: inner.calls,
     inner.response⟩

/-- The three price strings of the worked Report Assembler example. -/
def c4parts : List TypedListing :=
  [⟨"CPU", "PartA", "$199.99", "#", ""⟩,
   ⟨"GPU", "PartB", "Not Found", "#", ""⟩,
   ⟨"RAM", "PartC", "1,299.00", "#", ""⟩]

/-- The confirmed gaming Needs Record of the end-to-end scenario. -/
def confirmedGaming2000 : NeedsRecord :=
  ⟨2000, "gaming", true⟩

theorem str_append_assoc (a b c : String) : a ++ b ++ c = a ++ (b ++ c) := by
  apply String.ext
  simp [String.data_append, List.append_assoc]

theorem str_append_empty (a : String) : a ++ "" = a := by
  apply String.ext
  simp [String.data_append]

theorem decAdd_zero_right (d : Dec) : decAdd d decZero = d := by
  cases d
  simp [decAdd, decZero]

theorem decAdd_zero_left (d : Dec) : decAdd decZero d = d := by
  cases d
  simp [decAdd, decZero]

theorem decAdd_assoc (a b c : Dec) : decAdd (decAdd a b) c = decAdd a (decAdd b c) := by
  cases a
  cases b
  cases c
  simp only [decAdd, Dec.mk.injEq, pow_add]
  constructor
  · ring
  · omega

theorem formatLoop_ok (parts : List TypedListing) (h : ∀ p ∈ parts, priceOkB p.price = true) :
    ∀ (total : Dec) (table : String),
      formatLoop parts total table
        = Except.ok (decAdd total (lenientTotal parts),
            table ++ concatRows (parts.map partRow)) := by
  induction parts with
  | nil =>
    intro total table
    simp [formatLoop, lenientTotal, concatRows, decAdd_zero_right, str_append_empty]
  | cons p rest ih =>
    intro total table
    have hp : priceOkB p.price = true := h p (List.mem_cons_self p rest)
    have hr : ∀ q ∈ rest, priceOkB q.price = true :=
      fun q hq => h q (List.mem_cons_of_mem p hq)
    unfold priceOkB at hp
    cases he : (stripNonNumeric p.price).isEmpty with
    | true =>
      rw [formatLoop]
      simp only [he, if_true]
      rw [ih hr]
      simp [lenientTotal, lenientValue, he, decAdd_zero_left, decAdd_zero_right,
        concatRows, str_append_assoc]
    | false =>
      rw [he] at hp
      simp only [Bool.false_or] at hp
      rw [formatLoop]
      simp only [he, hp, Bool.false_eq_true, if_false, if_true]
      rw [ih hr]
      simp [lenientTotal, lenientValue, he, decAdd_assoc, concatRows, str_append_assoc]

theorem select_build_tier_cases (budget : Int) (u : String) :
    select_build_tier budget u = budget_office
  ∨ select_build_tier budget u = mid_range_gaming
  ∨ select_build_tier budget u = high_end_gaming
  ∨ select_build_tier budget u = professional_workstation := by
  unfold select_build_tier
  split_ifs <;> simp

/-- C1: the dialogue-state dispatch on an extracted Needs Record returns
exactly one of four actions in strict priority order, first match wins:
a zero budget asks for the budget regardless of the other fields, then
an unknown use case asks for the use case echoing the known budget, then
a missing confirmation asks to confirm restating budget and use case,
and otherwise the turn proceeds to build. -/
theorem resolver_priority_order (lookup : String → PartListing) (needs : NeedsRecord) :
    (needs.budget = 0 →
      respond_to_needs lookup needs = ⟨[], Except.ok ask_budget_prompt⟩)
  ∧ (needs.budget ≠ 0 → needs.use_case = "unknown" →
      respond_to_needs lookup needs = ⟨[], Except.ok (ask_use_case_prompt needs.budget)⟩)
  ∧ (needs.budget ≠ 0 → needs.use_case ≠ "unknown" → needs.has_confirmed = false →
      respond_to_needs lookup needs
        = ⟨[], Except.ok (ask_confirm_prompt needs.budget needs.use_case)⟩)
  ∧ (needs.budget ≠ 0 → needs.use_case ≠ "unknown" → needs.has_confirmed = true →
      respond_to_needs lookup needs = respond_build lookup needs) := by
  refine ⟨?_, ?_, ?_, ?_⟩ <;> intros <;> simp_all [respond_to_needs]

/-- Witness for C1: each of the four branches reached at a concrete
record. -/
theorem resolver_priority_order_inst :
    respond_to_needs notFoundListing ⟨0, "gaming", true⟩
      = ⟨[], Except.ok ask_budget_prompt⟩
  ∧ respond_to_needs notFoundListing ⟨1200, "unknown", true⟩
      = ⟨[], Except.ok (ask_use_case_prompt 1200)⟩
  ∧ respond_to_needs notFoundListing ⟨900, "office", false⟩
      = ⟨[], Except.ok (ask_confirm_prompt 900 "office")⟩
  ∧ respond_to_needs notFoundListing ⟨900, "office", true⟩
      = respond_build notFoundListing ⟨900, "office", true⟩ :=
  ⟨(resolver_priority_order notFoundListing ⟨0, "gaming", true⟩).1 rfl,
   (resolver_priority_order notFoundListing ⟨1200, "unknown", true⟩).2.1 (by decide) rfl,
   (resolver_priority_order notFoundListing ⟨900, "office", false⟩).2.2.1
     (by decide) (by decide) rfl,
   (resolver_priority_order notFoundListing ⟨900, "office", true⟩).2.2.2
     (by decide) (by decide) rfl⟩

/-- C2 evaluated at failing inputs: a price whose stripped form keeps
two dots, such as 1.2.3 or a scraped price range, makes the modelled
float() raise, so format_results_as_markdown aborts on a single price
value instead of degrading it to zero. -/
theorem price_parse_abort :
    format_results_as_markdown high_end_gaming
        [⟨"GPU", "NVIDIA GeForce RTX 4070 Super", "1.2.3", "#", ""⟩]
      = Except.error ()
  ∧ format_results_as_markdown budget_office
        [⟨"CPU", "AMD Ryzen 5 5600G", "$1,299.00 - $1,399.00", "#", ""⟩]
      = Except.error () :=
  ⟨rfl, rfl⟩

/-- C3: the chain is invoked with the key user_prompt while the template
declares the variable chat_history, so every invocation raises, the
fallback all-sentinel record is always returned, and every turn with a
non-empty history is answered with the ask-budget prompt. -/
theorem extraction_key_mismatch :
    providedKeys.contains "chat_history" = false
  ∧ templateVars.contains "chat_history" = true
  ∧ (∀ downstream : Except Unit NeedsRecord,
      analyze_user_needs downstream = sentinelNeeds)
  ∧ (∀ (downstream : Except Unit NeedsRecord) (lookup : String → PartListing)
      (msg : String) (turn : String × String) (rest : List (String × String)),
      (get_assistant_response downstream lookup msg (turn :: rest)).response
        = Except.ok ask_budget_prompt) :=
  ⟨rfl, rfl, fun _ => rfl, fun _ _ _ _ _ => rfl⟩

/-- C4: with every price leniently parseable, the report is the header,
one row per listing and the total line, the total being the sum of the
per-price lenient contributions, and on the worked example with prices
199.99 dollars, Not Found and 1,299.00 the total is exactly 1498.99 and
renders with two decimal places as 1498.99. -/
theorem lenient_total_computation (build : Build) (parts : List TypedListing)
    (h : ∀ p ∈ parts, priceOkB p.price = true) :
    format_results_as_markdown build parts
      = Except.ok (tableHeader build ++ concatRows (parts.map partRow)
          ++ totalFooter (lenientTotal parts))
  ∧ lenientTotal c4parts = ⟨14989900, 4⟩
  ∧ Dec.val (lenientTotal c4parts) = 149899 / 100
  ∧ render2dp (lenientTotal c4parts) = "1498.99" := by
  refine ⟨?_, by decide, ?_, by decide⟩
  · unfold format_results_as_markdown
    rw [formatLoop_ok parts h decZero (tableHeader build)]
    simp [decAdd_zero_left]
  · rw [show lenientTotal c4parts = ⟨14989900, 4⟩ from by decide]
    norm_num [Dec.val]

/-- Witness for C4 at the worked example. -/
theorem lenient_total_computation_inst :
    format_results_as_markdown budget_office c4parts
      = Except.ok (tableHeader budget_office ++ concatRows (c4parts.map partRow)
          ++ totalFooter (lenientTotal c4parts))
  ∧ render2dp (lenientTotal c4parts) = "1498.99" :=
  ⟨(lenient_total_computation budget_office c4parts (by decide)).1,
   (lenient_total_computation budget_office c4parts (by decide)).2.2.2⟩

/-- C5: for every budget and every use case containing gaming, the
selector returns the mid-range tier below 1600 and the high-end tier
from 1600 upward, with no upper budget bound on high-end. -/
theorem gaming_tier_selection (budget : Int) (use_case : String)
    (h : pyIn "gaming" use_case = true) :
    (budget < 1600 → select_build_tier budget use_case = mid_range_gaming)
  ∧ (1600 ≤ budget → select_build_tier budget use_case = high_end_gaming) := by
  refine ⟨fun hb => ?_, fun hb => ?_⟩
  · simp [select_build_tier, h, hb]
  · simp [select_build_tier, h, show ¬budget < 1600 by omega]

/-- Witness for C5 at the boundary examples 1500 and 1600. -/
theorem gaming_tier_selection_inst :
    select_build_tier 1500 "gaming" = mid_range_gaming
  ∧ select_build_tier 1600 "gaming" = high_end_gaming :=
  ⟨(gaming_tier_selection 1500 "gaming" (by decide)).1 (by decide),
   (gaming_tier_selection 1600 "gaming" (by decide)).2 (by decide)⟩

/-- C6: the selector is total, always returning one of the four catalog
tiers; editing without gaming gives the workstation for any budget,
office without gaming or editing gives the budget tier for any budget,
and with none of the keywords the budget thresholds 700 and 1600 decide
the tier. -/
theorem build_selector_total (budget : Int) (use_case : String) :
    select_build_tier budget use_case ∈ PC_BUILDS.map Prod.snd
  ∧ (pyIn "gaming" use_case = false → pyIn "editing" use_case = true →
      select_build_tier budget use_case = professional_workstation)
  ∧ (pyIn "gaming" use_case = false → pyIn "editing" use_case = false →
      pyIn "office" use_case = true →
      select_build_tier budget use_case = budget_office)
  ∧ (pyIn "gaming" use_case = false → pyIn "editing" use_case = false →
      pyIn "office" use_case = false →
      ((budget ≤ 700 → select_build_tier budget use_case = budget_office)
       ∧ (700 < budget → budget ≤ 1600 →
           select_build_tier budget use_case = mid_range_gaming)
       ∧ (1600 < budget → select_build_tier budget use_case = high_end_gaming))) := by
  refine ⟨?_, ?_, ?_, ?_⟩
  · rcases select_build_tier_cases budget use_case with h | h | h | h <;>
      rw [h] <;> simp [PC_BUILDS]
  · intro hg he
    simp [select_build_tier, hg, he]
  · intro hg he ho
    simp [select_build_tier, hg, he, ho]
  · intro hg he ho
    refine ⟨fun h7 => ?_, fun h7 h16 => ?_, fun h16 => ?_⟩
    · simp [select_build_tier, hg, he, ho, h7]
    · simp [select_build_tier, hg, he, ho, show ¬budget ≤ 700 by omega, h16]
    · simp [select_build_tier, hg, he, ho, show ¬budget ≤ 700 by omega,
        show ¬budget ≤ 1600 by omega]

/-- Witness for C6 at the spec examples and the keyword-free fallback. -/
theorem build_selector_total_inst :
    select_build_tier 999999 "editing" = professional_workstation
  ∧ select_build_tier 500 "unknown" = budget_office
  ∧ select_build_tier 1000 "browsing" = mid_range_gaming
  ∧ select_build_tier 2000 "" = high_end_gaming :=
  ⟨(build_selector_total 999999 "editing").2.1 (by decide) (by decide),
   ((build_selector_total 500 "unknown").2.2.2 (by decide) (by decide) (by decide)).1
     (by decide),
   ((build_selector_total 1000 "browsing").2.2.2 (by decide) (by decide) (by decide)).2.1
     (by decide) (by decide),
   ((build_selector_total 2000 "").2.2.2 (by decide) (by decide) (by decide)).2.2
     (by decide)⟩

/-- C7: whenever the extraction chain raises, analyze_user_needs returns
the all-sentinel record, never a partial record or an escaping
exception, and the turn with a non-empty history is answered with the
ask-budget prompt. -/
theorem extraction_failure_recovery (downstream : Except Unit NeedsRecord) (e : Unit)
    (hch : chain_invoke downstream = Except.error e) (lookup : String → PartListing)
    (msg : String) (turn : String × String) (rest : List (String × String)) :
    analyze_user_needs downstream = sentinelNeeds
  ∧ (get_assistant_response downstream lookup msg (turn :: rest)).response
      = Except.ok ask_budget_prompt := by
  constructor
  · simp [analyze_user_needs, hch]
  · rfl

/-- Witness for C7 at a failing chain invocation. -/
theorem extraction_failure_recovery_inst :
    analyze_user_needs (Except.error ()) = sentinelNeeds
  ∧ (get_assistant_response (Except.error ()) notFoundListing "please build it"
      (("hi", "hello") :: [])).response = Except.ok ask_budget_prompt :=
  extraction_failure_recovery (Except.error ()) () rfl notFoundListing
    "please build it" ("hi", "hello") []

/-- The listings the orchestrator collects for the high-end tier under a
given lookup oracle. -/
def highEndFinalParts (lookup : String → PartListing) : List TypedListing :=
  high_end_gaming.parts.map (fun pt => withType pt.1 (lookup pt.2))

/-- C8: on the confirmed record with budget 2000 and use case gaming the
dispatch selects the high-end tier and issues exactly its eight lookups,
one per category in the catalog order and nothing else, and with every
price leniently parseable the response is the table with eight rows
followed by the Estimated Total line. -/
theorem confirmed_gaming_2000_end_to_end (lookup : String → PartListing)
    (h : ∀ name, priceOkB (lookup name).price = true) :
    select_build_tier confirmedGaming2000.budget confirmedGaming2000.use_case
      = high_end_gaming
  ∧ (respond_to_needs lookup confirmedGaming2000).calls
      = high_end_gaming.parts.map (fun pt => CollabCall.lookup pt.2)
  ∧ (respond_to_needs lookup confirmedGaming2000).calls.length = 8
  ∧ ((highEndFinalParts lookup).map partRow).length = 8
  ∧ (respond_to_needs lookup confirmedGaming2000).response
      = Except.ok (tableHeader high_end_gaming
          ++ concatRows ((highEndFinalParts lookup).map partRow)
          ++ totalFooter (lenientTotal (highEndFinalParts lookup)))
  ∧ (∃ t, totalFooter (lenientTotal (highEndFinalParts lookup))
      = "\n**Estimated Total: $" ++ t) := by
  have hp : ∀ p ∈ highEndFinalParts lookup, priceOkB p.price = true := by
    intro p hmem
    simp only [highEndFinalParts, List.mem_map] at hmem
    obtain ⟨pt, _, rfl⟩ := hmem
    exact h pt.2
  refine ⟨rfl, rfl, rfl, rfl, ?_, ?_⟩
  · have hresp : (respond_to_needs lookup confirmedGaming2000).response
        = format_results_as_markdown high_end_gaming (highEndFinalParts lookup) := rfl
    rw [hresp]
    unfold format_results_as_markdown
    rw [formatLoop_ok (highEndFinalParts lookup) hp decZero (tableHeader high_end_gaming)]
    simp [decAdd_zero_left]
  · refine ⟨render2dp (lenientTotal (highEndFinalParts lookup))
      ++ ("**"
        ++ "\n\n*Prices are estimates from live search results and may vary. Links will open in a new tab.*"), ?_⟩
    unfold totalFooter
    rw [str_append_assoc, str_append_assoc]

/-- Witness for C8 with the not-found lookup oracle. -/
theorem confirmed_gaming_2000_end_to_end_inst :
    (respond_to_needs notFoundListing confirmedGaming2000).calls
      = high_end_gaming.parts.map (fun pt => CollabCall.lookup pt.2)
  ∧ (respond_to_needs notFoundListing confirmedGaming2000).calls.length = 8 :=
  ⟨(confirmed_gaming_2000_end_to_end notFoundListing (fun _ => rfl)).2.1,
   (confirmed_gaming_2000_end_to_end notFoundListing (fun _ => rfl)).2.2.1⟩

/-- C9: an empty history returns the fixed onboarding greeting with an
empty collaborator-call trace, so no extraction and no lookups happen. -/
theorem empty_history_greeting (downstream : Except Unit NeedsRecord)
    (lookup : String → PartListing) (msg : String) :
    get_assistant_response downstream lookup msg [] = ⟨[], Except.ok onboarding_prompt⟩ :=
  rfl

/-- C10 as stated is refuted: when every lookup returns the multi-dot
price 99.99.99 the confirmed gaming turn aborts inside price parsing, so
it does not yield a formatted report. -/
theorem confirmed_turn_abort_cex :
    (respond_to_needs (fun name => ⟨name, "99.99.99", "#", ""⟩)
        ⟨2000, "gaming", true⟩).response
      = Except.error () :=
  rfl

/-- C10 amended: every catalog tier has a non-empty parts list, the
proceed branch always maps a non-empty parts list and takes the
formatting path, so the generic failure message is unreachable, and
whenever every looked-up price is leniently parseable the confirmed turn
yields the formatted report. -/
theorem confirmed_turn_report (lookup : String → PartListing) (needs : NeedsRecord)
    (h1 : needs.budget ≠ 0) (h2 : needs.use_case ≠ "unknown")
    (h3 : needs.has_confirmed = true) :
    PC_BUILDS.all (fun b => !(Prod.snd b).parts.isEmpty) = true
  ∧ ((select_build_tier needs.budget needs.use_case).parts.map
      (fun pt => withType pt.1 (lookup pt.2))).isEmpty = false
  ∧ respond_to_needs lookup needs
      = ⟨(select_build_tier needs.budget needs.use_case).parts.map
           (fun pt => CollabCall.lookup pt.2),
         format_results_as_markdown (select_build_tier needs.budget needs.use_case)
           ((select_build_tier needs.budget needs.use_case).parts.map
             (fun pt => withType pt.1 (lookup pt.2)))⟩
  ∧ ((∀ name, priceOkB (lookup name).price = true) →
      respond_to_needs lookup needs
        = ⟨(select_build_tier needs.budget needs.use_case).parts.map
             (fun pt => CollabCall.lookup pt.2),
           Except.ok (tableHeader (select_build_tier needs.budget needs.use_case)
             ++ concatRows (((select_build_tier needs.budget needs.use_case).parts.map
                  (fun pt => withType pt.1 (lookup pt.2))).map partRow)
             ++ totalFooter (lenientTotal
                  ((select_build_tier needs.budget needs.use_case).parts.map
                    (fun pt => withType pt.1 (lookup pt.2)))))⟩) := by
  have hne : ((select_build_tier needs.budget needs.use_case).parts.map
      (fun pt => withType pt.1 (lookup pt.2))).isEmpty = false := by
    rcases select_build_tier_cases needs.budget needs.use_case with h | h | h | h <;>
      rw [h] <;> rfl
  have hstep : respond_to_needs lookup needs
      = ⟨(select_build_tier needs.budget needs.use_case).parts.map
           (fun pt => CollabCall.lookup pt.2),
         format_results_as_markdown (select_build_tier needs.budget needs.use_case)
           ((select_build_tier needs.budget needs.use_case).parts.map
             (fun pt => withType pt.1 (lookup pt.2)))⟩ := by
    have hb : respond_to_needs lookup needs = respond_build lookup needs := by
      simp [respond_to_needs, h1, h2, h3]
    rw [hb]
    unfold respond_build
    simp [hne]
  refine ⟨rfl, hne, hstep, fun hpar => ?_⟩
  have hp : ∀ p ∈ (select_build_tier needs.budget needs.use_case).parts.map
      (fun pt => withType pt.1 (lookup pt.2)), priceOkB p.price = true := by
    intro p hmem
    simp only [List.mem_map] at hmem
    obtain ⟨pt, _, rfl⟩ := hmem
    exact hpar pt.2
  rw [hstep]
  have hfmt : format_results_as_markdown (select_build_tier needs.budget needs.use_case)
      ((select_build_tier needs.budget needs.use_case).parts.map
        (fun pt => withType pt.1 (lookup pt.2)))
      = Except.ok (tableHeader (select_build_tier needs.budget needs.use_case)
          ++ concatRows (((select_build_tier needs.budget needs.use_case).parts.map
               (fun pt => withType pt.1 (lookup pt.2))).map partRow)
          ++ totalFooter (lenientTotal
               ((select_build_tier needs.budget needs.use_case).parts.map
                 (fun pt => withType pt.1 (lookup pt.2))))) := by
    unfold format_results_as_markdown
    rw [formatLoop_ok _ hp decZero _]
    simp [decAdd_zero_left]
  rw [hfmt]

/-- Witness for the amended C10 at a confirmed office record with the
not-found lookup oracle. -/
theorem confirmed_turn_report_inst :
    respond_to_needs notFoundListing ⟨800, "office", true⟩
      = ⟨(select_build_tier 800 "office").parts.map
           (fun pt => CollabCall.lookup pt.2),
         Except.ok (tableHeader (select_build_tier 800 "office")
           ++ concatRows (((select_build_tier 800 "office").parts.map
                (fun pt => withType pt.1 (notFoundListing pt.2))).map partRow)
           ++ totalFooter (lenientTotal ((select_build_tier 800 "office").parts.map
                (fun pt => withType pt.1 (notFoundListing pt.2)))))⟩ :=
  (confirmed_turn_report notFoundListing ⟨800, "office", true⟩ (by decide) (by decide)
    rfl).2.2.2 (fun _ => rfl)
